import Mathlib

/-!
Verification of the fishing mini-game predictive-timing controller
(`agent/fishing_agent.py`).

Positions on the progress bar are integers (pixel coordinates coming from
recognition bounding boxes); times and distances computed from them are
rationals (the Python source uses floats; we model the arithmetic exactly
over `ℚ`).
-/

namespace Fishing

/-- Cursor movement speed in px/frame (`CURSOR_SPEED_PX_PER_FRAME = 4.2`). -/
def CURSOR_SPEED_PX_PER_FRAME : ℚ := 21 / 5

/-- Blue-zone shrink rate in px/frame (`BLUE_ZONE_SHRINK_PX_PER_FRAME = 0.83`). -/
def BLUE_ZONE_SHRINK_PX_PER_FRAME : ℚ := 83 / 100

/-- `CoordCfg.progress_bar_left` default. -/
def progress_bar_left : ℤ := 479

/-- `CoordCfg.progress_bar_right` default. -/
def progress_bar_right : ℤ := 863

/-- `FishingBot._get_cursor_direction_from_frame`: one full cycle is 176
frames (88 rightwards, 88 leftwards); frames `0..87` of the cycle move
right (`+1`), frames `88..175` move left (`-1`). -/
def _get_cursor_direction_from_frame (frame_count : ℕ) : ℤ :=
  if frame_count % 176 < 88 then 1 else -1

/-- Minimum of the `start` components of a nonempty zone list
(`min(all_starts)` in Python), passed as head plus tail. -/
def minStarts (first : ℤ × ℤ) (rest : List (ℤ × ℤ)) : ℤ :=
  rest.foldl (fun a p => min a p.1) first.1

/-- Maximum of the `end` components of a nonempty zone list
(`max(all_ends)` in Python), passed as head plus tail. -/
def maxEnds (first : ℤ × ℤ) (rest : List (ℤ × ℤ)) : ℤ :=
  rest.foldl (fun a p => max a p.2) first.2

/-- `FishingBot._calculate_blue_region_zero_frame`: number of frames until
the merged blue region shrinks to zero width.  Python's `int()` truncation
equals `Int.floor` here because the distance is non-negative. -/
def _calculate_blue_region_zero_frame (blue_regions : List (ℤ × ℤ)) : Option ℤ :=
  match blue_regions with
  | [] => none
  | first :: rest =>
    let leftmost := minStarts first rest
    let rightmost := maxEnds first rest
    let blue_center : ℚ := ((leftmost : ℚ) + (rightmost : ℚ)) / 2
    let distance_to_center : ℚ := |(rightmost : ℚ) - blue_center|
    let frames_to_zero : ℚ := distance_to_center / BLUE_ZONE_SHRINK_PX_PER_FRAME
    some ⌊frames_to_zero⌋

/-- `FishingBot._calculate_click_timing`: seconds to wait until the cursor
reaches the near edge (in its direction of travel) of the first yellow
region, modelling at most one bounce off the bar boundary. -/
def _calculate_click_timing (bar_left bar_right : ℤ) (cursor_x : ℤ)
    (yellow_regions : List (ℤ × ℤ)) (current_frame : ℕ) : Option ℚ :=
  match yellow_regions with
  | [] => none
  | (yellow_start, yellow_end) :: _ =>
    let cursor_direction := _get_cursor_direction_from_frame current_frame
    let target_x : ℤ := if 0 < cursor_direction then yellow_start else yellow_end
    let distance : ℤ := target_x - cursor_x
    let total_distance : ℤ :=
      if 0 < cursor_direction ∧ distance < 0 then
        (bar_right - cursor_x) + (bar_right - target_x)
      else if cursor_direction < 0 ∧ 0 < distance then
        (cursor_x - bar_left) + (target_x - bar_left)
      else
        |distance|
    let frames_needed : ℚ := (total_distance : ℚ) / CURSOR_SPEED_PX_PER_FRAME
    let time_needed : ℚ := frames_needed / 60
    if 5 < time_needed then none else some time_needed

/-- `FishingBot._calculate_blue_click_timing`: seconds to wait until the
cursor reaches the centre of the merged blue region.  The source computes
`cursor_direction` but never uses it: the distance is simply
`abs(blue_center - cursor_x)`, with no bounce handling. -/
def _calculate_blue_click_timing (cursor_x : ℤ)
    (blue_regions : List (ℤ × ℤ)) (current_frame : ℕ) : Option ℚ :=
  match blue_regions with
  | [] => none
  | first :: rest =>
    let blue_start := minStarts first rest
    let blue_end := maxEnds first rest
    let blue_center : ℚ := ((blue_start : ℚ) + (blue_end : ℚ)) / 2
    let _cursor_direction := _get_cursor_direction_from_frame current_frame
    let distance : ℚ := blue_center - (cursor_x : ℚ)
    let total_distance : ℚ := |distance|
    let frames_needed : ℚ := total_distance / CURSOR_SPEED_PX_PER_FRAME
    let shrink_distance : ℚ := BLUE_ZONE_SHRINK_PX_PER_FRAME * frames_needed
    let predicted_blue_start : ℚ := (blue_start : ℚ) + shrink_distance
    let predicted_blue_end : ℚ := (blue_end : ℚ) - shrink_distance
    if predicted_blue_end - predicted_blue_start < 5 then none
    else
      let time_needed : ℚ := frames_needed / 60
      if 5 < time_needed then none else some time_needed

/-- The per-tick observation produced by `FishingBot.analyze_progress_bar`
from the three recognition calls (cursor, blue zones, yellow zones). -/
structure Observation where
  cursor_x : Option ℤ
  blue_regions : List (ℤ × ℤ)
  yellow_regions : List (ℤ × ℤ)
deriving DecidableEq, Repr

/-- The `valid` field computed at the end of `analyze_progress_bar`:
`cursor_x is not None and (len(blue) > 0 or len(yellow) > 0)`. -/
def Observation.valid (o : Observation) : Bool :=
  o.cursor_x.isSome &&
    (decide (0 < o.blue_regions.length) || decide (0 < o.yellow_regions.length))

/-- Which zone kind a tick decides to click (`target_zone` in
`play_minigame`). -/
inductive Target
  | yellow
  | blue
deriving DecidableEq, Repr

/-- Constructor state of `FishingBot` relevant to the mini-game decision:
`sell_interval` and `only_yellow` are stored by `__init__`; the bar bounds
come from `CoordCfg`. -/
structure FishingBotCfg where
  sell_interval : ℤ
  only_yellow : Bool
  bar_left : ℤ
  bar_right : ℤ
deriving DecidableEq, Repr

/-- `blue_region_zero_time` in `play_minigame`:
`frames_to_zero / 60.0 if frames_to_zero is not None else None`. -/
def blue_region_zero_time (blue_regions : List (ℤ × ℤ)) : Option ℚ :=
  (_calculate_blue_region_zero_frame blue_regions).map (fun n => (n : ℚ) / 60)

/-- The `should_click_yellow` flag of `play_minigame` (lines 382-388):
yellow regions exist and
`cursor_x + CURSOR_SPEED_PX_PER_FRAME * 0.27 * 60 < last_yellow_end`. -/
def should_click_yellow (cursor_x : ℤ) (yellow_regions : List (ℤ × ℤ)) : Bool :=
  match yellow_regions with
  | [] => false
  | _ :: _ =>
    decide ((cursor_x : ℚ) + CURSOR_SPEED_PX_PER_FRAME * (27 / 100) * 60
      < ((yellow_regions.getLastD (0, 0)).2 : ℚ))

/-- The vanish-time acceptance test of `play_minigame` (lines 395 and 405):
`blue_region_zero_time is None or wait_time + 0.27 < blue_region_zero_time`. -/
def acceptWait (wait_time : ℚ) (zero_time : Option ℚ) : Bool :=
  match zero_time with
  | none => true
  | some z => decide (wait_time + 27 / 100 < z)

/-- The blue tier of the target selection in `play_minigame`
(lines 400-408): runs when no yellow target was accepted. -/
def blueTier (cursor_x : ℤ) (blue_regions : List (ℤ × ℤ)) (frame : ℕ)
    (zero_time : Option ℚ) : Option (Target × ℚ) :=
  if blue_regions.isEmpty then none
  else
    match _calculate_blue_click_timing cursor_x blue_regions frame with
    | none => none
    | some w => if acceptWait w zero_time then some (Target.blue, w) else none

/-- The full target selection of one `play_minigame` tick
(lines 377-408): yellow tier first, falling through to the blue tier. -/
def decideTarget (bar_left bar_right : ℤ) (cursor_x : ℤ)
    (yellow_regions blue_regions : List (ℤ × ℤ)) (frame : ℕ) :
    Option (Target × ℚ) :=
  let zero_time := blue_region_zero_time blue_regions
  if should_click_yellow cursor_x yellow_regions then
    match _calculate_click_timing bar_left bar_right cursor_x yellow_regions frame with
    | none => blueTier cursor_x blue_regions frame zero_time
    | some w =>
      if acceptWait w zero_time then some (Target.yellow, w)
      else blueTier cursor_x blue_regions frame zero_time
  else blueTier cursor_x blue_regions frame zero_time

/-- Outcome of one iteration of the `play_minigame` loop. -/
inductive TickOutcome
  | exit (success : Bool)
  | click (target : Target) (wait : ℚ)
  | sleepReset (wait : ℚ)
  | retry
deriving DecidableEq, Repr

/-- One iteration of the `play_minigame` while-loop (lines 350-419), given
the elapsed time since round start, the running total-time budget, the
click count so far and the observation analysed from the screenshot.
`exit s` models `return s`; `click t w` models committing to target `t`
and waiting `w` seconds before tapping; `sleepReset z` models waiting `z`
seconds for the blue region to collapse and resetting the round clock;
`retry` models `continue` without further effect. -/
def minigameTick (cfg : FishingBotCfg) (elapsed total_time : ℚ)
    (click_count : ℕ) (o : Observation) : TickOutcome :=
  if total_time < elapsed then TickOutcome.exit (decide (0 < click_count))
  else if !o.valid then TickOutcome.exit true
  else
    match o.cursor_x with
    | none => TickOutcome.exit true
    | some cursor_x =>
      let frame : ℕ := (⌊elapsed * 60⌋).toNat
      match decideTarget cfg.bar_left cfg.bar_right cursor_x
          o.yellow_regions o.blue_regions frame with
      | some (t, w) => TickOutcome.click t w
      | none =>
        match blue_region_zero_time o.blue_regions with
        | some z => if 0 < z then TickOutcome.sleepReset z else TickOutcome.retry
        | none => TickOutcome.retry

/-- The `play_minigame` loop driven by a trace of tick inputs: each trace
element is the elapsed time the wall clock reports relative to the current
round start together with the observation analysed that tick.  The
hardcoded total-time budget is 17 seconds (line 347); reaching the end of
the trace models the loop ending because `running`/`stopping` flipped,
which returns `False` (line 449). -/
def play_minigame (cfg : FishingBotCfg) (click_count : ℕ) :
    List (ℚ × Observation) → Bool
  | [] => false
  | (elapsed, o) :: rest =>
    match minigameTick cfg elapsed 17 click_count o with
    | TickOutcome.exit s => s
    | TickOutcome.click _ _ => play_minigame cfg (click_count + 1) rest
    | TickOutcome.sleepReset _ => play_minigame cfg click_count rest
    | TickOutcome.retry => play_minigame cfg click_count rest

/-! ## Theorems -/

/-- C2: for every `frame_index ≥ 0` the direction function returns `+1`
when `frame_index mod 176 < 88` and `-1` otherwise, and it is periodic
with period 176; it is a total computable function, hence deterministic. -/
theorem direction_mod_and_periodic (f : ℕ) :
    (_get_cursor_direction_from_frame f = if f % 176 < 88 then 1 else -1) ∧
    _get_cursor_direction_from_frame (f + 176) = _get_cursor_direction_from_frame f := by
  refine ⟨rfl, ?_⟩
  simp [_get_cursor_direction_from_frame, Nat.add_mod_right]

/-- C1: for a cursor inside the bar bounds, the critical-zone timing is
the single-bounce model: if the chosen target edge of the first yellow
region is behind the direction of travel, the wait is (distance to the
boundary ahead + distance from that boundary back to the target edge)
divided by the speed and by 60; if it is ahead, the wait is
`|target − cursor| / speed / 60`.  (The 5-second sanity ceiling of the
function is assumed not to be hit; it is the subject of C9.) -/
theorem critical_timing_single_bounce (L R cx ys ye : ℤ) (rest : List (ℤ × ℤ))
    (f : ℕ) (hL : L ≤ cx) (hR : cx ≤ R) :
    (_get_cursor_direction_from_frame f = 1 → ys < cx →
      (((R : ℚ) - cx) + ((R : ℚ) - ys)) / CURSOR_SPEED_PX_PER_FRAME / 60 ≤ 5 →
      _calculate_click_timing L R cx ((ys, ye) :: rest) f
        = some ((((R : ℚ) - cx) + ((R : ℚ) - ys)) / CURSOR_SPEED_PX_PER_FRAME / 60)) ∧
    (_get_cursor_direction_from_frame f = -1 → cx < ye →
      (((cx : ℚ) - L) + ((ye : ℚ) - L)) / CURSOR_SPEED_PX_PER_FRAME / 60 ≤ 5 →
      _calculate_click_timing L R cx ((ys, ye) :: rest) f
        = some ((((cx : ℚ) - L) + ((ye : ℚ) - L)) / CURSOR_SPEED_PX_PER_FRAME / 60)) ∧
    (_get_cursor_direction_from_frame f = 1 → cx ≤ ys →
      |(ys : ℚ) - cx| / CURSOR_SPEED_PX_PER_FRAME / 60 ≤ 5 →
      _calculate_click_timing L R cx ((ys, ye) :: rest) f
        = some (|(ys : ℚ) - cx| / CURSOR_SPEED_PX_PER_FRAME / 60)) ∧
    (_get_cursor_direction_from_frame f = -1 → ye ≤ cx →
      |(ye : ℚ) - cx| / CURSOR_SPEED_PX_PER_FRAME / 60 ≤ 5 →
      _calculate_click_timing L R cx ((ys, ye) :: rest) f
        = some (|(ye : ℚ) - cx| / CURSOR_SPEED_PX_PER_FRAME / 60)) := by
  refine ⟨?_, ?_, ?_, ?_⟩ <;> intro hdir hside hle <;>
    simp only [_calculate_click_timing, hdir, CURSOR_SPEED_PX_PER_FRAME] at * <;>
    norm_num <;>
    first
      | (rw [if_pos hside]; exact ⟨hle, rfl⟩)
      | (rw [if_neg (not_lt.mpr hside)]; exact ⟨hle, rfl⟩)

/-- C1 witness. -/
theorem critical_timing_single_bounce_witness :
    _calculate_click_timing 479 863 600 [(500, 520)] 0
      = some ((((863 : ℚ) - 600) + ((863 : ℚ) - 500)) / CURSOR_SPEED_PX_PER_FRAME / 60) :=
  (critical_timing_single_bounce 479 863 600 500 520 [] 0 (by decide) (by decide)).1
    (by decide) (by decide) (by norm_num [CURSOR_SPEED_PX_PER_FRAME])

/-- C3: when the elapsed time of the round exceeds the total-time budget,
the tick exits immediately, with success exactly when at least one click
was already issued this round. -/
theorem timeout_exit (cfg : FishingBotCfg) (elapsed total_time : ℚ)
    (click_count : ℕ) (o : Observation) (h : total_time < elapsed) :
    minigameTick cfg elapsed total_time click_count o
      = TickOutcome.exit (decide (0 < click_count)) := by
  simp only [minigameTick, if_pos h]

/-- C3 witness: at 18 s elapsed of a 17 s budget, one issued click exits
with success; the Boolean recorded is exactly `0 < click_count`. -/
theorem timeout_exit_witness :
    minigameTick ⟨30, true, 479, 863⟩ 18 17 1 ⟨some 600, [], [(620, 640)]⟩
      = TickOutcome.exit (decide (0 < 1)) :=
  timeout_exit ⟨30, true, 479, 863⟩ 18 17 1 ⟨some 600, [], [(620, 640)]⟩ (by norm_num)

/-- C4: an observation is valid iff `cursor_x` is present and at least one
of the two zone lists is non-empty; and a tick that has not timed out but
whose observation is invalid exits immediately with success, for any click
count. -/
theorem invalid_observation_exit (cfg : FishingBotCfg) (elapsed total_time : ℚ)
    (click_count : ℕ) (o : Observation) (hno : elapsed ≤ total_time)
    (hinv : o.valid = false) :
    minigameTick cfg elapsed total_time click_count o = TickOutcome.exit true ∧
    (∀ o' : Observation,
      o'.valid = true ↔
        (o'.cursor_x.isSome = true ∧
          (o'.blue_regions ≠ [] ∨ o'.yellow_regions ≠ []))) := by
  constructor
  · simp only [minigameTick, if_neg (not_lt.mpr hno), hinv]
    rfl
  · intro o'
    simp [Observation.valid, List.length_pos, List.isEmpty_iff]

/-- C4 witness: an observation with a cursor but no zones is invalid, and
the tick exits with success even though no click was issued. -/
theorem invalid_observation_exit_witness :
    minigameTick ⟨30, true, 479, 863⟩ 2 17 0 ⟨some 600, [], []⟩
      = TickOutcome.exit true ∧
    (∀ o' : Observation,
      o'.valid = true ↔
        (o'.cursor_x.isSome = true ∧
          (o'.blue_regions ≠ [] ∨ o'.yellow_regions ≠ []))) :=
  invalid_observation_exit ⟨30, true, 479, 863⟩ 2 17 0 ⟨some 600, [], []⟩
    (by norm_num) (by decide)

/-- C5 counterexample: cursor at 600 moving right (frame 0) with the blue
union centred at 530 — the centre is behind the direction of travel, yet
the scheduler accepts the blue target with wait `|530 − 600| / 4.2 / 60 =
5/18 s`, which differs from the single-bounce value
`((863 − 600) + (863 − 530)) / 4.2 / 60` the claim requires. -/
theorem blue_timing_no_bounce_cex :
    decideTarget 479 863 600 [] [(500, 560)] 0 = some (Target.blue, 5 / 18) ∧
    (5 / 18 : ℚ)
      ≠ (((863 : ℚ) - 600) + ((863 : ℚ) - 530)) / CURSOR_SPEED_PX_PER_FRAME / 60 := by
  constructor
  · norm_num [decideTarget, should_click_yellow, blueTier, acceptWait,
      blue_region_zero_time, _calculate_blue_click_timing,
      _calculate_blue_region_zero_frame, minStarts, maxEnds,
      CURSOR_SPEED_PX_PER_FRAME, BLUE_ZONE_SHRINK_PX_PER_FRAME]
  · norm_num [CURSOR_SPEED_PX_PER_FRAME]

/-- C5 amended: the bonus-zone wait time ignores the cursor's direction of
travel entirely — the result does not depend on the frame index, and any
returned wait equals `|union centre − cursor_x| / speed / 60` directly,
with no bounce modelling. -/
theorem blue_timing_direct_distance (cx : ℤ) (first : ℤ × ℤ)
    (rest : List (ℤ × ℤ)) (f g : ℕ) :
    _calculate_blue_click_timing cx (first :: rest) f
      = _calculate_blue_click_timing cx (first :: rest) g ∧
    (∀ w : ℚ, _calculate_blue_click_timing cx (first :: rest) f = some w →
      w = |((minStarts first rest : ℚ) + (maxEnds first rest : ℚ)) / 2 - (cx : ℚ)|
            / CURSOR_SPEED_PX_PER_FRAME / 60) := by
  constructor
  · rfl
  · intro w hw
    simp only [_calculate_blue_click_timing] at hw
    split_ifs at hw with h1 h2
    exact (Option.some.injEq _ _ ▸ hw).symm

/-- C5 amended witness. -/
theorem blue_timing_direct_distance_witness :
    _calculate_blue_click_timing 600 [(500, 560)] 0
      = _calculate_blue_click_timing 600 [(500, 560)] 100 ∧
    (5 / 18 : ℚ)
      = |((minStarts (500, 560) [] : ℚ) + (maxEnds (500, 560) [] : ℚ)) / 2 - (600 : ℚ)|
          / CURSOR_SPEED_PX_PER_FRAME / 60 :=
  ⟨(blue_timing_direct_distance 600 (500, 560) [] 0 100).1,
   (blue_timing_direct_distance 600 (500, 560) [] 0 100).2 (5 / 18)
     (by norm_num [_calculate_blue_click_timing, minStarts, maxEnds,
       CURSOR_SPEED_PX_PER_FRAME, BLUE_ZONE_SHRINK_PX_PER_FRAME])⟩

/-- C6 counterexample: for the blue union `(400, 420)` the vanish time is
`⌊10 / 0.83⌋ = 12` frames, i.e. `12/60 = 1/5 s`, which lies outside the
claimed interval `[8/60, 10/60]`. -/
theorem blue_vanish_time_cex :
    blue_region_zero_time [(400, 420)] = some (1 / 5) ∧
    ¬ ((8 : ℚ) / 60 ≤ 1 / 5 ∧ (1 / 5 : ℚ) ≤ 10 / 60) := by
  constructor
  · norm_num [blue_region_zero_time, _calculate_blue_region_zero_frame,
      minStarts, maxEnds, BLUE_ZONE_SHRINK_PX_PER_FRAME]
  · norm_num

/-- C6 amended: for the blue union `(400, 420)` the function computes the
time to full collapse (width 0), not to the 5 px usability threshold:
`int(((420 − 400)/2) / 0.83) = 12` frames, i.e. `12/60 = 0.2` s at 60 fps. -/
theorem blue_vanish_time_420 :
    _calculate_blue_region_zero_frame [(400, 420)] = some 12 ∧
    blue_region_zero_time [(400, 420)] = some (12 / 60) := by
  constructor <;>
    norm_num [blue_region_zero_time, _calculate_blue_region_zero_frame,
      minStarts, maxEnds, BLUE_ZONE_SHRINK_PX_PER_FRAME]

/-- C7: when critical (yellow) zones are present, the critical tier is
attempted exactly when `cursor_x + speed × 0.27 × 60` is strictly below
the far edge of the last yellow zone; otherwise the decision falls through
to the bonus (blue) tier. -/
theorem critical_eligibility (L R cx : ℤ) (yellow blue : List (ℤ × ℤ))
    (f : ℕ) (hne : yellow ≠ []) :
    (should_click_yellow cx yellow = true ↔
      (cx : ℚ) + CURSOR_SPEED_PX_PER_FRAME * (27 / 100) * 60
        < ((yellow.getLastD (0, 0)).2 : ℚ)) ∧
    (should_click_yellow cx yellow = false →
      decideTarget L R cx yellow blue f
        = blueTier cx blue f (blue_region_zero_time blue)) := by
  constructor
  · match yellow, hne with
    | y :: ys, _ => simp [should_click_yellow]
  · intro h
    simp [decideTarget, h]

/-- C7 witness: cursor 600 with a single yellow zone ending at 640 is
ineligible (600 + 68.04 ≥ 640), so the decision equals the blue tier. -/
theorem critical_eligibility_witness :
    (should_click_yellow 600 [(620, 640)] = true ↔
      (600 : ℚ) + CURSOR_SPEED_PX_PER_FRAME * (27 / 100) * 60
        < ((([(620, 640)] : List (ℤ × ℤ)).getLastD (0, 0)).2 : ℚ)) ∧
    decideTarget 479 863 600 [(620, 640)] [] 0
      = blueTier 600 [] 0 (blue_region_zero_time []) :=
  ⟨(critical_eligibility 479 863 600 [(620, 640)] [] 0 (by simp)).1,
   (critical_eligibility 479 863 600 [(620, 640)] [] 0 (by simp)).2
     (by norm_num [should_click_yellow, CURSOR_SPEED_PX_PER_FRAME])⟩

/-- C8: a computed wait time is accepted exactly under the vanish-margin
test `wait + 0.27 < vanish_time` (unconditionally when no vanish time
exists), for the critical tier — whose rejection falls through to the blue
tier — and for the blue tier alike.  (For the blue tier a vanish time
always exists, since both are computed from the same non-empty list.) -/
theorem vanish_margin_acceptance (L R cx : ℤ) (yellow blue : List (ℤ × ℤ))
    (f : ℕ) (w : ℚ) :
    (should_click_yellow cx yellow = true →
      _calculate_click_timing L R cx yellow f = some w →
      ((blue_region_zero_time blue = none →
         decideTarget L R cx yellow blue f = some (Target.yellow, w)) ∧
       (∀ z : ℚ, blue_region_zero_time blue = some z → w + 27 / 100 < z →
         decideTarget L R cx yellow blue f = some (Target.yellow, w)) ∧
       (∀ z : ℚ, blue_region_zero_time blue = some z → ¬ w + 27 / 100 < z →
         decideTarget L R cx yellow blue f
           = blueTier cx blue f (blue_region_zero_time blue)))) ∧
    (_calculate_blue_click_timing cx blue f = some w →
      ((∀ z : ℚ, blue_region_zero_time blue = some z → w + 27 / 100 < z →
         blueTier cx blue f (blue_region_zero_time blue)
           = some (Target.blue, w)) ∧
       (∀ z : ℚ, blue_region_zero_time blue = some z → ¬ w + 27 / 100 < z →
         blueTier cx blue f (blue_region_zero_time blue) = none))) := by
  constructor
  · intro hy hcalc
    refine ⟨?_, ?_, ?_⟩
    · intro hz
      simp [decideTarget, hy, hcalc, acceptWait, hz]
    · intro z hz hacc
      simp [decideTarget, hy, hcalc, acceptWait, hz, hacc]
    · intro z hz hacc
      simp [decideTarget, hy, hcalc, acceptWait, hz, hacc]
  · intro hcalc
    have hne : blue ≠ [] := by
      intro h
      rw [h] at hcalc
      exact Option.noConfusion hcalc
    constructor
    · intro z hz hacc
      simp [blueTier, List.isEmpty_iff, hne, hcalc, acceptWait, hz, hacc]
    · intro z hz hacc
      simp [blueTier, List.isEmpty_iff, hne, hcalc, acceptWait, hz, hacc]

/-- C8 witness: with no blue zones the vanish time is `none` and an
eligible yellow wait is accepted unconditionally. -/
theorem vanish_margin_acceptance_witness :
    decideTarget 479 863 600 [(680, 700)] [] 0 = some (Target.yellow, 20 / 63) :=
  ((vanish_margin_acceptance 479 863 600 [(680, 700)] [] 0 (20 / 63)).1
    (by norm_num [should_click_yellow, CURSOR_SPEED_PX_PER_FRAME])
    (by norm_num [_calculate_click_timing, _get_cursor_direction_from_frame,
      CURSOR_SPEED_PX_PER_FRAME])).1 rfl

/-- C9: neither timing computation ever returns a wait above the 5-second
sanity ceiling, for every cursor position, zone list and frame index; and
whenever the blue computation does return a wait, the predicted width of
the blue union at arrival is at least 5 px. -/
theorem sanity_ceiling (L R cx : ℤ) (yellow blue : List (ℤ × ℤ)) (f : ℕ) :
    (∀ w : ℚ, _calculate_click_timing L R cx yellow f = some w → w ≤ 5) ∧
    (∀ (first : ℤ × ℤ) (rest : List (ℤ × ℤ)) (w : ℚ),
      blue = first :: rest →
      _calculate_blue_click_timing cx blue f = some w →
      w ≤ 5 ∧
      5 ≤ ((maxEnds first rest : ℚ) - (minStarts first rest : ℚ))
            - 2 * (BLUE_ZONE_SHRINK_PX_PER_FRAME *
                (|((minStarts first rest : ℚ) + (maxEnds first rest : ℚ)) / 2
                    - (cx : ℚ)| / CURSOR_SPEED_PX_PER_FRAME))) := by
  constructor
  · intro w hw
    match yellow with
    | [] => exact Option.noConfusion hw
    | (ys, ye) :: rest =>
      simp only [_calculate_click_timing] at hw
      split_ifs at hw <;>
        first
          | exact Option.noConfusion hw
          | (rw [Option.some_inj] at hw
             rw [← hw]
             exact le_of_not_lt (by assumption))
  · intro first rest w hblue hw
    subst hblue
    simp only [_calculate_blue_click_timing] at hw
    split_ifs at hw with h1 h2
    rw [Option.some_inj] at hw
    constructor
    · rw [← hw]
      exact le_of_not_lt h2
    · rw [not_lt] at h1
      linarith [h1]

/-- C9 witness: a direct yellow wait of `20/63 s ≤ 5 s`, and a blue wait of
`5/18 s ≤ 5 s` whose union still spans at least 5 px on arrival. -/
theorem sanity_ceiling_witness :
    ((20 : ℚ) / 63 ≤ 5) ∧
    ((5 : ℚ) / 18 ≤ 5 ∧
      5 ≤ ((maxEnds (500, 560) [] : ℚ) - (minStarts (500, 560) [] : ℚ))
            - 2 * (BLUE_ZONE_SHRINK_PX_PER_FRAME *
                (|((minStarts (500, 560) [] : ℚ) + (maxEnds (500, 560) [] : ℚ)) / 2
                    - ((600 : ℤ) : ℚ)| / CURSOR_SPEED_PX_PER_FRAME))) :=
  ⟨(sanity_ceiling 479 863 600 [(680, 700)] [(500, 560)] 0).1 (20 / 63)
      (by norm_num [_calculate_click_timing, _get_cursor_direction_from_frame,
        CURSOR_SPEED_PX_PER_FRAME]),
   (sanity_ceiling 479 863 600 [(680, 700)] [(500, 560)] 0).2 (500, 560) [] (5 / 18)
      rfl
      (by norm_num [_calculate_blue_click_timing, minStarts, maxEnds,
        CURSOR_SPEED_PX_PER_FRAME, BLUE_ZONE_SHRINK_PX_PER_FRAME])⟩

/-- C10: the `only_yellow` constructor parameter is stored but never read
by the decision logic — the per-tick outcome and the round result of the
mini-game loop are identical for `only_yellow = true` and
`only_yellow = false`, for every configuration, tick input and trace. -/
theorem only_yellow_no_influence (si L R : ℤ) (elapsed total_time : ℚ)
    (click_count : ℕ) (o : Observation) (trace : List (ℚ × Observation)) :
    minigameTick ⟨si, true, L, R⟩ elapsed total_time click_count o
      = minigameTick ⟨si, false, L, R⟩ elapsed total_time click_count o ∧
    play_minigame ⟨si, true, L, R⟩ click_count trace
      = play_minigame ⟨si, false, L, R⟩ click_count trace := by
  constructor
  · rfl
  · induction trace generalizing click_count with
    | nil => rfl
    | cons head tail ih =>
      obtain ⟨e, ob⟩ := head
      simp only [play_minigame]
      have ht : minigameTick ⟨si, true, L, R⟩ e 17 click_count ob
          = minigameTick ⟨si, false, L, R⟩ e 17 click_count ob := rfl
      rw [ht]
      cases minigameTick ⟨si, false, L, R⟩ e 17 click_count ob <;> simp [ih]

end Fishing
